import Mathlib

/-!
Shallow embedding of `ml3d/datasets/argoverse.py`, the Argoverse 3D
dataset adapter: the dataset catalog with its three split indices, the
split view with its flattened sequences and index-based access, the
per-box decoding of `read_label`, and the two class-name tables.

External collaborators are modelled as parameters: the scalar type is
an arbitrary field `R` (instantiated with `ℚ` for concrete evaluation
and with `ℝ` for the trigonometric facts), the numpy trigonometric
functions are a record of functions on `R`, and the pyntcloud
point-cloud file reader is a function from paths to point lists.
-/

deriving instance DecidableEq for Except

namespace Argo

/-- Numeric collaborators used by the decoder (`np.arctan`, `np.cos`,
`np.sin`, and the square root inside `np.linalg.norm`), abstracted over
the scalar type. -/
structure RealOps (R : Type) where
  arctan : R → R
  cos : R → R
  sin : R → R
  sqrt : R → R

/-- One raw bounding-box annotation, the dict read by
`Argoverse.read_label`. The data model guarantees at least two projected
2D corners, so the first two rows of `2d_coord` are typed explicitly and
the remaining rows are kept separately. -/
structure RawBox (R : Type) where
  label_class : String
  center : R × R × R
  w : R
  h : R
  l : R
  coord2d0 : R × R
  coord2d1 : R × R
  coord2dRest : List (R × R)
  coord3d : List (R × R × R)
  occlusion : Int
  quaternion : R × R × R × R
  deriving DecidableEq

/-- Whole `2d_coord` sequence of a raw box (stored unchanged into
`Object3d.coords_2d`). -/
def RawBox.coord2d {R : Type} (b : RawBox R) : List (R × R) :=
  b.coord2d0 :: b.coord2d1 :: b.coord2dRest

/-- Decoded bounding box (`class Object3d`), including the fields its
`BoundingBox3D` base class stores from `super().__init__`. -/
structure Object3d (R : Type) where
  center : R × R × R
  front : R × R × R
  up : R × R × R
  left : R × R × R
  size : R × R × R
  label_class : Nat
  confidence : R
  name : String
  cls_id : Nat
  dis_to_cam : R
  occlusion : Int
  quaternion : R × R × R × R
  coords_3d : List (R × R × R)
  coords_2d : List (R × R)
  deriving DecidableEq

/-- Name-to-id table inside `Object3d.cls_type_to_id`. -/
def type_to_id : List (String × Nat) :=
  [("ignore", 0), ("VEHICLE", 1), ("PEDESTRIAN", 2), ("ON_ROAD_OBSTACLE", 3),
   ("LARGE_VEHICLE", 4), ("BICYCLE", 5), ("BICYCLIST", 6), ("BUS", 7),
   ("OTHER_MOVER", 8), ("TRAILER", 9), ("MOTORCYCLIST", 10), ("MOPED", 11),
   ("MOTORCYCLE", 12), ("STROLLER", 13), ("EMERGENCY_VEHICLE", 14),
   ("ANIMAL", 15)]

/-- `Object3d.cls_type_to_id`: object id for a class name, with 0 for
any name outside the table. -/
def cls_type_to_id (cls_type : String) : Nat :=
  match type_to_id.lookup cls_type with
  | some i => i
  | none => 0

/-- `Argoverse.get_label_to_names`: the fixed id-to-name table. -/
def get_label_to_names : List (Nat × String) :=
  [(0, "ignore"), (1, "VEHICLE"), (2, "PEDESTRIAN"), (3, "ON_ROAD_OBSTACLE"),
   (4, "LARGE_VEHICLE"), (5, "BICYCLE"), (6, "BICYCLIST"), (7, "BUS"),
   (8, "OTHER_MOVER"), (9, "TRAILER"), (10, "MOTORCYCLIST"), (11, "MOPED"),
   (12, "MOTORCYCLE"), (13, "STROLLER"), (14, "EMERGENCY_VEHICLE"),
   (15, "ANIMAL")]

/-- `Object3d.__init__`: assemble the decoded box from the heading
frame, size, class name and the raw annotation (the `super().__init__`
fields plus the Argoverse-specific ones). -/
def Object3d.make {R : Type} [Field R] (ops : RealOps R)
    (center front up left : R × R × R) (size : R × R × R)
    (name : String) (box : RawBox R) : Object3d R :=
  { center := center
    front := front
    up := up
    left := left
    size := size
    label_class := cls_type_to_id name
    confidence := 1
    name := name
    cls_id := cls_type_to_id name
    dis_to_cam := ops.sqrt (center.1 * center.1 + center.2.1 * center.2.1 +
      center.2.2 * center.2.2)
    occlusion := box.occlusion
    quaternion := box.quaternion
    coords_3d := box.coord3d
    coords_2d := box.coord2d }

/-- Heading frame derived in `Argoverse.read_label` from the angle `ry`:
`front = [cos ry, sin ry, 0]`, `up = [0, 0, 1]`,
`left = [sin ry, cos ry, 0]`. -/
def headingFrame {R : Type} [Field R] (ops : RealOps R) (ry : R) :
    (R × R × R) × (R × R × R) × (R × R × R) :=
  ((ops.cos ry, ops.sin ry, 0), (0, 0, 1), (ops.sin ry, ops.cos ry, 0))

/-- `Argoverse.read_label`: decode every raw box of a scene into an
`Object3d`, in order. The heading is
`ry = arctan((x0 - x1) / (y0 - y1))` over the first two projected
corners, with no guard on the denominator. -/
def read_label {R : Type} [Field R] (ops : RealOps R)
    (bboxes : List (RawBox R)) : List (Object3d R) :=
  bboxes.map fun box =>
    let name := box.label_class
    let center := box.center
    let size := (box.w, box.h, box.l)
    let ry := ops.arctan ((box.coord2d0.1 - box.coord2d1.1) /
      (box.coord2d0.2 - box.coord2d1.2))
    let frame := headingFrame ops ry
    Object3d.make ops center frame.1 frame.2.1 frame.2.2 size name box

/-- One record of a prebuilt split index (an element of the sequence
deserialized from `infos_<split>.pkl`): a point-cloud count `num_pc`, a
list of lidar paths and the per-scene raw-box lists. -/
structure SceneInfo (R : Type) where
  num_pc : Nat
  lidar_path : List String
  bbox : List (List (RawBox R))
  deriving DecidableEq

/-- Errors surfaced by the module: `ValueError` for an invalid split
name and `IndexError` for an out-of-range list subscript. -/
inductive DatasetError where
  | invalidSplit
  | indexOutOfRange
  deriving DecidableEq

/-- Dataset catalog (`class Argoverse`): the three split indices loaded
in `__init__`. -/
structure Argoverse (R : Type) where
  train_info : List (SceneInfo R)
  val_info : List (SceneInfo R)
  test_info : List (SceneInfo R)
  deriving DecidableEq

/-- Index loading of `Argoverse.__init__` over an abstract directory:
each of the three index files is deserialized when present, and an
absent file leaves that split's index empty. -/
def Argoverse.construct {R : Type}
    (readInfoFile : String → Option (List (SceneInfo R))) : Argoverse R :=
  { train_info := (readInfoFile "infos_train.pkl").getD []
    val_info := (readInfoFile "infos_val.pkl").getD []
    test_info := (readInfoFile "infos_test.pkl").getD [] }

/-- `Argoverse.get_split_list`: normalize the six split aliases to the
three stored indices; any other name raises `ValueError`. -/
def Argoverse.get_split_list {R : Type} (d : Argoverse R) (split : String) :
    Except DatasetError (List (SceneInfo R)) :=
  if split = "train" ∨ split = "training" then .ok d.train_info
  else if split = "test" ∨ split = "testing" then .ok d.test_info
  else if split = "val" ∨ split = "validation" then .ok d.val_info
  else .error .invalidSplit

/-- Aggregated state built by `ArgoverseSplit.__init__`: the point-cloud
count `num_pc` and the flattened path and box sequences, with the split
name and the owning dataset. -/
structure ArgoverseSplit (R : Type) where
  num_pc : Nat
  path_list : List String
  bboxes : List (List (RawBox R))
  split : String
  dataset : Argoverse R
  deriving DecidableEq

/-- `ArgoverseSplit.__init__`: fetch the split's records (propagating
`ValueError` for an invalid name) and accumulate `num_pc`, `path_list`
and `bboxes` over them in order. -/
def ArgoverseSplit.create {R : Type} (dataset : Argoverse R)
    (split : String) : Except DatasetError (ArgoverseSplit R) :=
  (dataset.get_split_list split).map fun infos =>
    { num_pc := infos.foldl (fun acc info => acc + info.num_pc) 0
      path_list := infos.foldl (fun acc info => acc ++ info.lidar_path) []
      bboxes := infos.foldl (fun acc info => acc ++ info.bbox) []
      split := split
      dataset := dataset }

/-- `Argoverse.get_split`. -/
def Argoverse.get_split {R : Type} (d : Argoverse R) (split : String) :
    Except DatasetError (ArgoverseSplit R) :=
  ArgoverseSplit.create d split

/-- `ArgoverseSplit.__len__`: returns `self.num_pc`. -/
def ArgoverseSplit.length {R : Type} (s : ArgoverseSplit R) : Nat :=
  s.num_pc

/-- Python list subscript `l[i]`: a negative index counts from the end,
and any index out of range raises `IndexError` (modelled as `none`). -/
def pythonGet {α : Type} (l : List α) (i : Int) : Option α :=
  let j : Int := if i < 0 then i + l.length else i
  if 0 ≤ j ∧ j < (l.length : Int) then l.get? j.toNat else none

/-- Sample record returned by `get_data`, with `feat` and `calib` set to
`None`. -/
structure Sample (R : Type) where
  point : List (R × R × R)
  feat : Option Unit
  calib : Option Unit
  bounding_boxes : List (Object3d R)
  deriving DecidableEq

/-- Attribute record returned by `get_attr`. -/
structure Attr where
  name : String
  path : String
  split : String
  deriving DecidableEq

/-- Characters of the final path component: everything after the last
"/" (the `Path(pc_path).name` step of `get_attr`). -/
def lastComponent (cs : List Char) : List Char :=
  cs.foldl (fun acc c => if c = '/' then [] else acc ++ [c]) []

/-- Characters before the first "." (the `.split(".")[0]` step of
`get_attr`). -/
def untilDot : List Char → List Char
  | [] => []
  | c :: rest => if c = '.' then [] else c :: untilDot rest

/-- Filename stem used by `get_attr`:
`Path(pc_path).name.split(".")[0]`. -/
def fileStem (p : String) : String :=
  String.mk (untilDot (lastComponent p.data))

/-- `ArgoverseSplit.get_data`: subscript the path and box sequences
(raising `IndexError` when out of range), read the point cloud through
the reader collaborator, decode the boxes with `read_label`, and
assemble the sample with `feat` and `calib` set to `None`. -/
def ArgoverseSplit.get_data {R : Type} [Field R] (ops : RealOps R)
    (read_lidar : String → List (R × R × R)) (s : ArgoverseSplit R)
    (idx : Int) : Except DatasetError (Sample R) :=
  match pythonGet s.path_list idx with
  | none => .error .indexOutOfRange
  | some lidar_path =>
    match pythonGet s.bboxes idx with
    | none => .error .indexOutOfRange
    | some bboxes =>
      let pc := read_lidar lidar_path
      let label := read_label ops bboxes
      .ok { point := pc, feat := none, calib := none,
            bounding_boxes := label }

/-- `ArgoverseSplit.get_attr`: subscript the path sequence (raising
`IndexError` when out of range) and build the attribute record from the
filename stem, the path and the split name. -/
def ArgoverseSplit.get_attr {R : Type} (s : ArgoverseSplit R)
    (idx : Int) : Except DatasetError Attr :=
  match pythonGet s.path_list idx with
  | none => .error .indexOutOfRange
  | some pc_path =>
    .ok { name := fileStem pc_path, path := pc_path, split := s.split }

/-! Concrete instances over `ℚ`, used by witnesses and counterexamples. -/

/-- Dummy trigonometric collaborator over `ℚ` (the structural claims do
not depend on the trigonometric values). -/
def qOps : RealOps ℚ :=
  { arctan := fun x => x, cos := fun x => x, sin := fun x => x,
    sqrt := fun x => x }

/-- Dummy point-cloud reader over `ℚ`. -/
def qReader : String → List (ℚ × ℚ × ℚ) := fun _ => []

/-- Index record whose `num_pc` (5) differs from the number of lidar
paths (2). -/
def exInfosA : List (SceneInfo ℚ) :=
  [{ num_pc := 5, lidar_path := ["a", "b"], bbox := [[], []] }]

def exDatasetA : Argoverse ℚ :=
  { train_info := exInfosA, val_info := [], test_info := [] }

/-- Index record whose `num_pc` (2) matches the number of lidar paths. -/
def exInfosB : List (SceneInfo ℚ) :=
  [{ num_pc := 2, lidar_path := ["a", "b"], bbox := [[], []] }]

def exDatasetB : Argoverse ℚ :=
  { train_info := exInfosB, val_info := [], test_info := [] }

/-- Split view that `ArgoverseSplit.create exDatasetB "train"`
produces. -/
def exSplitB : ArgoverseSplit ℚ :=
  { num_pc := 2, path_list := ["a", "b"], bboxes := [[], []],
    split := "train", dataset := exDatasetB }

/-- Index record with fewer point clouds (1) than lidar paths (2). -/
def exInfosC : List (SceneInfo ℚ) :=
  [{ num_pc := 1, lidar_path := ["a", "b"], bbox := [[], []] }]

def exDatasetC : Argoverse ℚ :=
  { train_info := exInfosC, val_info := [], test_info := [] }

/-- Raw box with distinct corner y-coordinates. -/
def exBox : RawBox ℚ :=
  { label_class := "VEHICLE", center := (1, 2, 3), w := 1, h := 2, l := 3,
    coord2d0 := (0, 0), coord2d1 := (1, 2), coord2dRest := [],
    coord3d := [], occlusion := 0, quaternion := (0, 0, 0, 1) }

/-- Index record with one scene carrying one raw box. -/
def exInfosD : List (SceneInfo ℚ) :=
  [{ num_pc := 1, lidar_path := ["scene.001.bin"], bbox := [[exBox]] }]

def exDatasetD : Argoverse ℚ :=
  { train_info := exInfosD, val_info := [], test_info := [] }

/-- Split view that `ArgoverseSplit.create exDatasetD "train"`
produces. -/
def exSplitD : ArgoverseSplit ℚ :=
  { num_pc := 1, path_list := ["scene.001.bin"], bboxes := [[exBox]],
    split := "train", dataset := exDatasetD }

/-- Raw box whose first two projected corners are (0, 0) and (1, 0):
their y-coordinates are equal, so the heading denominator
`y0 - y1` is zero. -/
def degBox : RawBox ℚ :=
  { label_class := "VEHICLE", center := (0, 0, 0), w := 1, h := 1, l := 1,
    coord2d0 := (0, 0), coord2d1 := (1, 0), coord2dRest := [],
    coord3d := [], occlusion := 0, quaternion := (0, 0, 0, 1) }

/-- Real-number instantiation of the numeric collaborator: the
idealized semantics of `np.arctan`, `np.cos`, `np.sin` and the square
root inside `np.linalg.norm`. -/
noncomputable def realOps : RealOps ℝ :=
  { arctan := Real.arctan, cos := Real.cos, sin := Real.sin,
    sqrt := Real.sqrt }

/-- Euclidean dot product on the 3-vector triples of the embedding. -/
def dot3 (a b : ℝ × ℝ × ℝ) : ℝ :=
  a.1 * b.1 + a.2.1 * b.2.1 + a.2.2 * b.2.2

/-! Helper lemmas about the accumulation loop of
`ArgoverseSplit.__init__` and about Python subscripts. -/

theorem foldl_add_num_pc {R : Type} (l : List (SceneInfo R)) (n : Nat) :
    l.foldl (fun acc info => acc + info.num_pc) n =
      n + (l.map SceneInfo.num_pc).sum := by
  induction l generalizing n with
  | nil => simp
  | cons x xs ih => simp [List.foldl_cons, ih, Nat.add_assoc]

theorem foldl_append_field {R : Type} {α : Type} (f : SceneInfo R → List α)
    (l : List (SceneInfo R)) (acc : List α) :
    l.foldl (fun acc info => acc ++ f info) acc = acc ++ (l.map f).flatten := by
  induction l generalizing acc with
  | nil => simp
  | cons x xs ih => simp [List.foldl_cons, ih]

theorem pythonGet_none_of_oob {α : Type} (l : List α) (i : Int)
    (h : (l.length : Int) ≤ i ∨ i < -(l.length : Int)) :
    pythonGet l i = none := by
  unfold pythonGet
  rcases h with h | h
  · have hi : ¬ i < 0 := by omega
    rw [if_neg hi]
    have hc : ¬ (0 ≤ i ∧ i < (l.length : Int)) := by omega
    rw [if_neg hc]
  · have hi : i < 0 := by omega
    rw [if_pos hi]
    have hc : ¬ (0 ≤ i + (l.length : Int) ∧
        i + (l.length : Int) < (l.length : Int)) := by omega
    rw [if_neg hc]

theorem pythonGet_nat {α : Type} (l : List α) (i : Nat) (h : i < l.length) :
    pythonGet l (i : Int) = l.get? i := by
  unfold pythonGet
  have h0 : ¬ ((i : Int) < 0) := by omega
  have h1 : 0 ≤ (i : Int) ∧ (i : Int) < (l.length : Int) := by omega
  simp [h0, h1]

theorem pythonGet_neg_shift {α : Type} (l : List α) (i : Int)
    (h1 : -(l.length : Int) ≤ i) (h2 : i < 0) :
    pythonGet l i = pythonGet l ((l.length : Int) + i) := by
  unfold pythonGet
  have hnn : ¬ ((l.length : Int) + i < 0) := by omega
  simp only [h2, if_true, hnn, if_false]
  have : i + (l.length : Int) = (l.length : Int) + i := by omega
  rw [this]

theorem pythonGet_isSome {α : Type} (l : List α) (i : Int)
    (h1 : -(l.length : Int) ≤ i) (h2 : i < (l.length : Int)) :
    ∃ a, pythonGet l i = some a := by
  unfold pythonGet
  by_cases hn : i < 0
  · have hb : 0 ≤ i + (l.length : Int) ∧ i + (l.length : Int) < (l.length : Int) := by
      omega
    simp only [hn, if_true, hb, and_self, if_true]
    have hlt : (i + (l.length : Int)).toNat < l.length := by omega
    exact ⟨l.get ⟨_, hlt⟩, List.get?_eq_get hlt⟩
  · have hb : 0 ≤ i ∧ i < (l.length : Int) := by omega
    simp only [hn, if_false, hb, and_self, if_true]
    have hlt : i.toNat < l.length := by omega
    exact ⟨l.get ⟨_, hlt⟩, List.get?_eq_get hlt⟩

/-! Claims. -/

/-- C1 counterexample: for the split built from a record with
`num_pc = 5` but only two lidar paths, `length()` returns 5 (the sum of
the `num_pc` fields), not 2 (the number of addressable scenes
`len(lidarPaths)`), so the claim as stated is false. -/
theorem C1_counterexample :
    (exDatasetA.get_split "train").map ArgoverseSplit.length =
      Except.ok 5 ∧
    (exDatasetA.get_split "train").map (fun sv => sv.path_list.length) =
      Except.ok 2 := by
  exact ⟨by decide, by decide⟩

/-- C1 (amended): `length()` returns the sum of the records' `num_pc`
fields — the same value that is logged — rather than the number of
addressable scenes `len(lidarPaths)`; in particular it equals
`len(lidarPaths)` whenever every record's `num_pc` matches the length
of its lidar-path list. -/
theorem C1_length_is_num_pc_sum {R : Type} (d : Argoverse R)
    (split : String) (infos : List (SceneInfo R)) (sv : ArgoverseSplit R)
    (hinfos : d.get_split_list split = .ok infos)
    (hsv : d.get_split split = .ok sv) :
    sv.length = (infos.map SceneInfo.num_pc).sum ∧
    ((∀ info ∈ infos, info.num_pc = info.lidar_path.length) →
      sv.length = sv.path_list.length) := by
  unfold Argoverse.get_split ArgoverseSplit.create at hsv
  rw [hinfos] at hsv
  simp only [Except.map] at hsv
  injection hsv with hsv
  subst hsv
  refine ⟨?_, ?_⟩
  · simp only [ArgoverseSplit.length]
    rw [foldl_add_num_pc]
    simp
  · intro hal
    simp only [ArgoverseSplit.length]
    rw [foldl_add_num_pc, foldl_append_field]
    simp only [Nat.zero_add, List.nil_append, List.length_flatten,
      List.map_map]
    congr 1
    apply List.map_congr_left
    intro a ha
    simpa using hal a ha

/-- C1 witness: on the aligned example split (one record, `num_pc = 2`,
two paths) the amended claim evaluates concretely. -/
theorem C1_length_is_num_pc_sum_witness :
    exSplitB.length = (exInfosB.map SceneInfo.num_pc).sum ∧
    exSplitB.length = exSplitB.path_list.length := by
  have h := C1_length_is_num_pc_sum exDatasetB "train" exInfosB exSplitB
    (by decide) (by decide)
  exact ⟨h.1, h.2 (by decide)⟩

/-- C5: the three pairs of split-name aliases resolve to the identical
stored index. -/
theorem C5_split_aliases {R : Type} (d : Argoverse R) :
    d.get_split_list "train" = d.get_split_list "training" ∧
    d.get_split_list "val" = d.get_split_list "validation" ∧
    d.get_split_list "test" = d.get_split_list "testing" :=
  ⟨rfl, rfl, rfl⟩

/-- C6: any split name outside the six recognized values fails with
`ValueError` (invalid split); no default or empty index is returned. -/
theorem C6_invalid_split {R : Type} (d : Argoverse R) (split : String)
    (h : split ∉ ["train", "training", "test", "testing", "val",
      "validation"]) :
    d.get_split_list split = .error .invalidSplit := by
  simp only [List.mem_cons, List.not_mem_nil, or_false, not_or] at h
  obtain ⟨h1, h2, h3, h4, h5, h6⟩ := h
  simp [Argoverse.get_split_list, h1, h2, h3, h4, h5, h6]

/-- C6 witness: the unrecognized name "foo" fails. -/
theorem C6_invalid_split_witness :
    exDatasetB.get_split_list "foo" = .error .invalidSplit :=
  C6_invalid_split exDatasetB "foo" (by decide)

/-- C8: the id-to-name table has 16 entries, the name-to-id table
inverts it on every id (in particular on "VEHICLE" and id 1), and any
name outside the table maps to 0 without failing. -/
theorem C8_class_tables :
    get_label_to_names.length = 16 ∧
    (∀ i, i < 16 → (get_label_to_names.lookup i).isSome = true ∧
      cls_type_to_id ((get_label_to_names.lookup i).getD "") = i) ∧
    cls_type_to_id "VEHICLE" = 1 ∧
    get_label_to_names.lookup 1 = some "VEHICLE" ∧
    (∀ s, s ∉ type_to_id.map Prod.fst → cls_type_to_id s = 0) := by
  refine ⟨by decide, by decide, by decide, by decide, ?_⟩
  intro s hs
  simp only [type_to_id, List.map_cons, List.map_nil, List.mem_cons,
    List.not_mem_nil, or_false, not_or] at hs
  obtain ⟨n1, n2, n3, n4, n5, n6, n7, n8, n9, n10, n11, n12, n13, n14,
    n15, n16⟩ := hs
  simp [cls_type_to_id, type_to_id, List.lookup, beq_false_of_ne n1,
    beq_false_of_ne n2, beq_false_of_ne n3, beq_false_of_ne n4,
    beq_false_of_ne n5, beq_false_of_ne n6, beq_false_of_ne n7,
    beq_false_of_ne n8, beq_false_of_ne n9, beq_false_of_ne n10,
    beq_false_of_ne n11, beq_false_of_ne n12, beq_false_of_ne n13,
    beq_false_of_ne n14, beq_false_of_ne n15, beq_false_of_ne n16]

/-- C8 witness: the round trip at id 1 and the fallback on an unknown
name, evaluated concretely. -/
theorem C8_class_tables_witness :
    cls_type_to_id ((get_label_to_names.lookup 1).getD "") = 1 ∧
    cls_type_to_id "unknown-garbage" = 0 := by
  obtain ⟨-, h2, -, -, h5⟩ := C8_class_tables
  exact ⟨(h2 1 (by decide)).2, h5 "unknown-garbage" (by decide)⟩

/-- C2 counterexample: index -1 on a two-scene split succeeds (Python
end-relative indexing) instead of failing, and on a split whose
`num_pc` (1) is below the number of paths (2) the index
`i = length() = 1` also succeeds — both contradicting the claimed
contract. -/
theorem C2_counterexample :
    (exDatasetB.get_split "train").map (fun sv => sv.get_attr (-1)) =
      Except.ok (Except.ok { name := "b", path := "b", split := "train" }) ∧
    (exDatasetC.get_split "train").map
      (fun sv => (sv.length, sv.get_attr (sv.length : Int))) =
      Except.ok (1, Except.ok { name := "b", path := "b",
                                split := "train" }) := by
  exact ⟨by decide, by decide⟩

/-- C2 (amended): `getAttr` fails with `IndexOutOfRangeError` exactly
when the index is outside the path sequence under Python subscript
semantics, i.e. when `i ≥ len(lidarPaths)` or `i < -len(lidarPaths)`;
`getData` fails for every such out-of-range index too, and on a split
whose flattened box sequence is aligned with the path sequence it
fails for no other index; in particular `i = length()` fails whenever
`length() ≥ len(lidarPaths)`, while in-range negative indices are
resolved end-relative rather than failing. -/
theorem C2_index_contract {R : Type} [Field R] (ops : RealOps R)
    (read_lidar : String → List (R × R × R)) (sv : ArgoverseSplit R)
    (i : Int) :
    (sv.get_attr i = .error .indexOutOfRange ↔
      (sv.path_list.length : Int) ≤ i ∨
        i < -(sv.path_list.length : Int)) ∧
    (((sv.path_list.length : Int) ≤ i ∨
        i < -(sv.path_list.length : Int)) →
      sv.get_data ops read_lidar i = .error .indexOutOfRange) ∧
    (sv.bboxes.length = sv.path_list.length →
      (sv.get_data ops read_lidar i = .error .indexOutOfRange ↔
        (sv.path_list.length : Int) ≤ i ∨
          i < -(sv.path_list.length : Int))) := by
  have hfail : ((sv.path_list.length : Int) ≤ i ∨
      i < -(sv.path_list.length : Int)) →
      pythonGet sv.path_list i = none :=
    pythonGet_none_of_oob sv.path_list i
  refine ⟨⟨?_, ?_⟩, ?_, ?_⟩
  · intro herr
    by_contra hnot
    push_neg at hnot
    obtain ⟨hn1, hn2⟩ := hnot
    obtain ⟨a, ha⟩ := pythonGet_isSome sv.path_list i (by omega) (by omega)
    unfold ArgoverseSplit.get_attr at herr
    rw [ha] at herr
    simp at herr
  · intro h
    unfold ArgoverseSplit.get_attr
    rw [hfail h]
  · intro h
    unfold ArgoverseSplit.get_data
    rw [hfail h]
  · intro halign
    constructor
    · intro herr
      by_contra hnot
      push_neg at hnot
      obtain ⟨hn1, hn2⟩ := hnot
      obtain ⟨p, hp⟩ := pythonGet_isSome sv.path_list i (by omega)
        (by omega)
      obtain ⟨b, hb⟩ := pythonGet_isSome sv.bboxes i
        (by rw [halign]; omega) (by rw [halign]; omega)
      unfold ArgoverseSplit.get_data at herr
      rw [hp, hb] at herr
      simp at herr
    · intro h
      unfold ArgoverseSplit.get_data
      rw [hfail h]

/-- C2 witness: on the two-scene split, index 5 fails both accessors
while the in-range index -1 does not fail `get_attr`. -/
theorem C2_index_contract_witness :
    exSplitB.get_attr 5 = .error .indexOutOfRange ∧
    exSplitB.get_data qOps qReader 5 = .error .indexOutOfRange ∧
    ¬ exSplitB.get_attr (-1) = .error .indexOutOfRange := by
  have h5 := C2_index_contract qOps qReader exSplitB 5
  have hm1 := C2_index_contract qOps qReader exSplitB (-1)
  exact ⟨h5.1.mpr (by decide), h5.2.1 (by decide),
    fun hc => absurd (hm1.1.mp hc) (by decide)⟩

/-- C4: for a valid index into an aligned split view, `get_data`
returns a sample holding one decoded `Object3d` per raw box of that
scene, in order, with `feat` and `calib` set to `None`. -/
theorem C4_get_data_decodes {R : Type} [Field R] (ops : RealOps R)
    (read_lidar : String → List (R × R × R)) (sv : ArgoverseSplit R)
    (i : Nat) (halign : sv.bboxes.length = sv.path_list.length)
    (hi : i < sv.path_list.length) :
    ∃ bl smp, sv.bboxes.get? i = some bl ∧
      sv.get_data ops read_lidar (i : Int) = .ok smp ∧
      smp.bounding_boxes = read_label ops bl ∧
      smp.bounding_boxes.length = bl.length ∧
      smp.feat = none ∧ smp.calib = none := by
  have hib : i < sv.bboxes.length := by omega
  have hp : pythonGet sv.path_list (i : Int) = sv.path_list.get? i :=
    pythonGet_nat sv.path_list i hi
  have hb : pythonGet sv.bboxes (i : Int) = sv.bboxes.get? i :=
    pythonGet_nat sv.bboxes i hib
  obtain ⟨p, hp2⟩ : ∃ p, sv.path_list.get? i = some p :=
    ⟨_, List.get?_eq_get hi⟩
  obtain ⟨bl, hb2⟩ : ∃ b, sv.bboxes.get? i = some b :=
    ⟨_, List.get?_eq_get hib⟩
  refine ⟨bl, { point := read_lidar p, feat := none, calib := none,
                bounding_boxes := read_label ops bl },
    hb2, ?_, rfl, ?_, rfl, rfl⟩
  · unfold ArgoverseSplit.get_data
    rw [hp, hp2, hb, hb2]
  · simp [read_label]

/-- C4 witness: the one-scene, one-box split evaluated at index 0. -/
theorem C4_get_data_decodes_witness :
    ∃ bl smp, exSplitD.bboxes.get? 0 = some bl ∧
      exSplitD.get_data qOps qReader ((0 : Nat) : Int) = .ok smp ∧
      smp.bounding_boxes = read_label qOps bl ∧
      smp.bounding_boxes.length = bl.length ∧
      smp.feat = none ∧ smp.calib = none :=
  C4_get_data_decodes qOps qReader exSplitD 0 (by decide) (by decide)

/-- C7: when the `infos_val.pkl` index file is absent, construction
succeeds with an empty validation index, and the "val" split view is
built without error with `length() = 0`. -/
theorem C7_missing_val_index {R : Type}
    (readInfoFile : String → Option (List (SceneInfo R)))
    (h : readInfoFile "infos_val.pkl" = none) :
    (Argoverse.construct readInfoFile).val_info = [] ∧
    ∃ sv, (Argoverse.construct readInfoFile).get_split "val" = .ok sv ∧
      sv.length = 0 := by
  have hval : (Argoverse.construct readInfoFile).val_info = [] := by
    simp [Argoverse.construct, h]
  have hlist : (Argoverse.construct readInfoFile).get_split_list "val" =
      .ok ((Argoverse.construct readInfoFile).val_info) := rfl
  refine ⟨hval,
    ⟨0, [], [], "val", Argoverse.construct readInfoFile⟩, ?_, rfl⟩
  unfold Argoverse.get_split ArgoverseSplit.create
  rw [hlist, hval]
  rfl

/-- C7 witness: a directory with no index files at all. -/
theorem C7_missing_val_index_witness :
    (Argoverse.construct
      (fun _ => (none : Option (List (SceneInfo ℚ))))).val_info = [] ∧
    ∃ sv, (Argoverse.construct
      (fun _ => (none : Option (List (SceneInfo ℚ))))).get_split "val" =
        .ok sv ∧ sv.length = 0 :=
  C7_missing_val_index (fun _ => none) rfl

/-- C9: on an aligned split view, every negative index `i` with
`-len(lidarPaths) ≤ i ≤ -1` succeeds for both `get_data` and
`get_attr`, resolving to the scene at position `len(lidarPaths) + i`,
counted from the end. -/
theorem C9_negative_indexing {R : Type} [Field R] (ops : RealOps R)
    (read_lidar : String → List (R × R × R)) (sv : ArgoverseSplit R)
    (i : Int) (halign : sv.bboxes.length = sv.path_list.length)
    (h1 : -(sv.path_list.length : Int) ≤ i) (h2 : i ≤ -1) :
    0 ≤ (sv.path_list.length : Int) + i ∧
    sv.get_attr i = sv.get_attr ((sv.path_list.length : Int) + i) ∧
    (∃ a, sv.get_attr i = .ok a) ∧
    sv.get_data ops read_lidar i =
      sv.get_data ops read_lidar ((sv.path_list.length : Int) + i) ∧
    (∃ smp, sv.get_data ops read_lidar i = .ok smp) := by
  have hneg : i < 0 := by omega
  have hshift := pythonGet_neg_shift sv.path_list i h1 hneg
  have hshiftb : pythonGet sv.bboxes i =
      pythonGet sv.bboxes ((sv.path_list.length : Int) + i) := by
    have hx := pythonGet_neg_shift sv.bboxes i (by rw [halign]; exact h1)
      hneg
    rw [halign] at hx
    exact hx
  obtain ⟨p, hp⟩ := pythonGet_isSome sv.path_list i h1 (by omega)
  obtain ⟨b, hb⟩ := pythonGet_isSome sv.bboxes i
    (by rw [halign]; exact h1) (by rw [halign]; omega)
  refine ⟨by omega, ?_, ?_, ?_, ?_⟩
  · unfold ArgoverseSplit.get_attr
    rw [hshift]
  · unfold ArgoverseSplit.get_attr
    rw [hp]
    exact ⟨_, rfl⟩
  · unfold ArgoverseSplit.get_data
    rw [hshift, hshiftb]
  · unfold ArgoverseSplit.get_data
    rw [hp, hb]
    exact ⟨_, rfl⟩

/-- C9 witness: index -1 on the two-scene split resolves to the last
scene for both accessors. -/
theorem C9_negative_indexing_witness :
    0 ≤ (exSplitB.path_list.length : Int) + (-1) ∧
    exSplitB.get_attr (-1) =
      exSplitB.get_attr ((exSplitB.path_list.length : Int) + (-1)) ∧
    (∃ a, exSplitB.get_attr (-1) = .ok a) ∧
    exSplitB.get_data qOps qReader (-1) =
      exSplitB.get_data qOps qReader
        ((exSplitB.path_list.length : Int) + (-1)) ∧
    (∃ smp, exSplitB.get_data qOps qReader (-1) = .ok smp) :=
  C9_negative_indexing qOps qReader exSplitB (-1) (by decide) (by decide)
    (by decide)

/-- C3: the decoding of the degenerate box applies the arctangent
directly to the quotient `(x0 - x1) / (y0 - y1)` whose denominator is
zero — whichever numeric collaborator is supplied, there is no guard
branch and no fallback value in the code. -/
theorem C3_unguarded (ops : RealOps ℚ) :
    (read_label ops [degBox]).map Object3d.front =
      [(ops.cos (ops.arctan ((0 - 1) / (0 - 0))),
        ops.sin (ops.arctan ((0 - 1) / (0 - 0))), 0)] := rfl

/-- C10: for every heading angle ry, the derived front and left vectors
have unit norm and are orthogonal to up, their dot product equals
sin(2·ry), and they are orthogonal to each other exactly when ry is an
integer multiple of π/2 — so the (front, up, left) frame is not
orthonormal in general. -/
theorem C10_heading_frame (ry : ℝ) :
    Real.sqrt (dot3 (headingFrame realOps ry).1
      (headingFrame realOps ry).1) = 1 ∧
    Real.sqrt (dot3 (headingFrame realOps ry).2.2
      (headingFrame realOps ry).2.2) = 1 ∧
    dot3 (headingFrame realOps ry).1 (headingFrame realOps ry).2.1 = 0 ∧
    dot3 (headingFrame realOps ry).2.2 (headingFrame realOps ry).2.1 = 0 ∧
    dot3 (headingFrame realOps ry).1 (headingFrame realOps ry).2.2 =
      Real.sin (2 * ry) ∧
    (dot3 (headingFrame realOps ry).1 (headingFrame realOps ry).2.2 = 0 ↔
      ∃ k : ℤ, ry = k * (Real.pi / 2)) := by
  have hfront : dot3 (headingFrame realOps ry).1
      (headingFrame realOps ry).1 = 1 := by
    simp only [dot3, headingFrame, realOps]
    linear_combination Real.sin_sq_add_cos_sq ry
  have hleft : dot3 (headingFrame realOps ry).2.2
      (headingFrame realOps ry).2.2 = 1 := by
    simp only [dot3, headingFrame, realOps]
    linear_combination Real.sin_sq_add_cos_sq ry
  have hmix : dot3 (headingFrame realOps ry).1
      (headingFrame realOps ry).2.2 = Real.sin (2 * ry) := by
    simp only [dot3, headingFrame, realOps]
    linear_combination -Real.sin_two_mul ry
  refine ⟨by rw [hfront, Real.sqrt_one], by rw [hleft, Real.sqrt_one],
    ?_, ?_, hmix, ?_⟩
  · simp only [dot3, headingFrame, realOps]
    ring
  · simp only [dot3, headingFrame, realOps]
    ring
  · rw [hmix, Real.sin_eq_zero_iff]
    constructor
    · rintro ⟨n, hn⟩
      exact ⟨n, by linarith⟩
    · rintro ⟨k, hk⟩
      exact ⟨k, by rw [hk]; ring⟩

end Argo
